import Mathlib

/-!
Shallow embedding of the gitopsctl reconciliation controller
(`internal/controller`, `internal/core/app`, `internal/core/cluster`,
`internal/core/k8s`) together with proofs about its status transitions,
persistence behaviour, failure backoff, shutdown and manifest application.

Conventions: Go `time.Duration` and Go `int` are 64-bit signed integers and
are modelled as `Int`, with an explicit two-complement truncation
(`int64Wrap`) applied exactly where the source performs arithmetic that can
overflow.  Status fields are the literal Go strings.  The shared
`Applications.Apps` map is an association list from names to records.
-/

namespace Gitopsctl

/-- A single-quote character as a string, used inside status messages. -/
def sq : String := String.singleton (Char.ofNat 39)

/-- Application record (`internal/core/app`): the fields the controller
reads and writes.  `pollingInterval` is the parsed interval in nanoseconds;
`consecutiveFailures` is the failure counter. -/
structure Application where
  name : String
  repoURL : String
  branch : String
  path : String
  clusterName : String
  pollingInterval : Int
  lastSyncedGitHash : String
  status : String
  message : String
  consecutiveFailures : Int
deriving DecidableEq, Repr

/-- The shared applications map (`Applications.Apps`). -/
abbrev Store := List (String × Application)

/-- Map lookup on the applications collection (`Applications.Get`). -/
def lookupApp : Store → String → Option Application
  | [], _ => none
  | (n, a) :: rest, nm => if n = nm then some a else lookupApp rest nm

/-- Replacing the record stored under a name (mutation of the map entry). -/
def updateApp : Store → String → Application → Store
  | [], _, _ => []
  | (n, a) :: rest, nm, b =>
      if n = nm then (n, b) :: updateApp rest nm b
      else (n, a) :: updateApp rest nm b

/-- `saveAppStatus` (controller.go): look up the in-store copy by name; if it
is absent, do nothing.  Otherwise, when forced or when status, last synced
hash, or consecutive-failure count differ from the store copy, copy the
worker's fields into the store record and invoke `SaveApplications`.
Returns the updated store and whether the registry file write was invoked. -/
def saveAppStatus (store : Store) (appToSave : Application) (forceSave : Bool) :
    Store × Bool :=
  match lookupApp store appToSave.name with
  | none => (store, false)
  | some originalApp =>
    if forceSave
        || originalApp.status != appToSave.status
        || originalApp.lastSyncedGitHash != appToSave.lastSyncedGitHash
        || originalApp.consecutiveFailures != appToSave.consecutiveFailures then
      (updateApp store appToSave.name
        { originalApp with
            status := appToSave.status
            message := appToSave.message
            lastSyncedGitHash := appToSave.lastSyncedGitHash
            consecutiveFailures := appToSave.consecutiveFailures }, true)
    else
      (store, false)

/-- Result of `git.CloneOrPull`: the resolved commit hash or an error. -/
inductive GitResult where
  | ok (hash : String)
  | fail (err : String)
deriving DecidableEq, Repr

/-- The environment one `performSync` call observes: the git resolution
outcome, whether `repoDir/path` exists, and the error list returned by
`ApplyManifests` when it is reached. -/
structure SyncEnv where
  gitResult : GitResult
  pathExists : Bool
  applyErrors : List String
deriving DecidableEq, Repr

/-- What one `performSync` call produced: the worker's updated application
copy, the updated shared store, whether the registry file was written, and
whether `ApplyManifests` was invoked. -/
structure SyncOutcome where
  app : Application
  store : Store
  wrote : Bool
  applied : Bool
deriving DecidableEq, Repr

/-- `performSync` (controller.go lines 521-592), per branch of the source:
git failure; unchanged commit (with and without a prior
Error/Pending/SyncRequested status); missing manifests path; apply errors;
successful apply. -/
def performSync (env : SyncEnv) (store : Store) (a : Application) : SyncOutcome :=
  match env.gitResult with
  | .fail err =>
    let a1 := { a with
        status := "Error"
        message := "Git pull error: " ++ err
        consecutiveFailures := a.consecutiveFailures + 1 }
    let r := saveAppStatus store a1
      (a.status != a1.status || a.lastSyncedGitHash != a1.lastSyncedGitHash)
    ⟨a1, r.1, r.2, false⟩
  | .ok currentHash =>
    if currentHash = a.lastSyncedGitHash then
      if a.status = "Error" ∨ a.status = "Pending" ∨ a.status = "SyncRequested" then
        let a1 := { a with
            status := "Synced"
            message := "Up to date at " ++ currentHash
            consecutiveFailures := 0 }
        let r := saveAppStatus store a1
          (a.status != a1.status || a.lastSyncedGitHash != a1.lastSyncedGitHash)
        ⟨a1, r.1, r.2, false⟩
      else
        ⟨{ a with message := "Up to date at " ++ currentHash }, store, false, false⟩
    else if env.pathExists = false then
      let a1 := { a with
          status := "Error"
          message := "Manifests path " ++ sq ++ a.path ++ sq ++
            " not found in repo after cloning. Check " ++ sq ++ "path" ++ sq ++
            " in config or repo structure."
          consecutiveFailures := a.consecutiveFailures + 1 }
      let r := saveAppStatus store a1
        (a.status != a1.status || a.lastSyncedGitHash != a1.lastSyncedGitHash)
      ⟨a1, r.1, r.2, false⟩
    else if env.applyErrors ≠ [] then
      let a1 := { a with
          status := "Error"
          message := "Failed to apply " ++ toString env.applyErrors.length ++
            " manifest(s): " ++ String.intercalate "; " env.applyErrors
          consecutiveFailures := a.consecutiveFailures + 1 }
      let r := saveAppStatus store a1
        (a.status != a1.status || a.lastSyncedGitHash != a1.lastSyncedGitHash)
      ⟨a1, r.1, r.2, true⟩
    else
      let a1 := { a with
          lastSyncedGitHash := currentHash
          status := "Synced"
          message := "Successfully synced to " ++ currentHash
          consecutiveFailures := 0 }
      let r := saveAppStatus store a1
        (a.status != a1.status || a.lastSyncedGitHash != a1.lastSyncedGitHash
          || a.consecutiveFailures != a1.consecutiveFailures)
      ⟨a1, r.1, r.2, true⟩

/-- `MaxConsecutiveFailures` (controller.go). -/
def MaxConsecutiveFailures : Int := 5

/-- `BaseBackoffDuration` = 5 seconds, in nanoseconds. -/
def BaseBackoffDuration : Int := 5 * 1000000000

/-- Two-complement truncation to a signed 64-bit value: the semantics of Go
`int` / `time.Duration` arithmetic where it can overflow. -/
def int64Wrap (x : Int) : Int := (x + 2 ^ 63) % 2 ^ 64 - 2 ^ 63

/-- Go `int64(1) << s` for a non-negative shift count `s`. -/
def goShiftOne (s : Nat) : Int := int64Wrap (2 ^ s)

/-- The effective interval the reconciler resets its ticker to before
handling a periodic tick (reconcileApp, controller.go lines 483-496):
`min(BaseBackoffDuration << (failures-1), pollingInterval * MaxConsecutiveFailures)`
under 64-bit arithmetic when `consecutiveFailures > 0`, otherwise the
configured polling interval. -/
def effectiveInterval (pollingInterval : Int) (consecutiveFailures : Int) : Int :=
  if consecutiveFailures > 0 then
    let backoffFactor := goShiftOne (consecutiveFailures - 1).toNat
    min (int64Wrap (BaseBackoffDuration * backoffFactor))
        (int64Wrap (pollingInterval * MaxConsecutiveFailures))
  else
    pollingInterval

/-- `handleAppCommand`, `Start` branch with an absent referenced cluster
(controller.go lines 333-344): status `Error`, failures reset to zero,
forced persistence. -/
def startAppMissingCluster (store : Store) (a : Application) :
    Application × Store × Bool :=
  let a1 := { a with
      status := "Error"
      message := "Cluster " ++ sq ++ a.clusterName ++ sq ++ " does not exist"
      consecutiveFailures := 0 }
  let r := saveAppStatus store a1 true
  (a1, r.1, r.2)

/-- `reconcileApp` initialization, cluster-lookup failure (lines 424-432). -/
def reconcileClusterMissing (store : Store) (a : Application) :
    Application × Store × Bool :=
  let a1 := { a with
      status := "Error"
      message := "Cluster " ++ sq ++ a.clusterName ++ sq ++ " does not exist"
      consecutiveFailures := 0 }
  let r := saveAppStatus store a1 true
  (a1, r.1, r.2)

/-- `reconcileApp` initialization, temp-dir creation failure (lines 435-442):
status `Error`, failure count untouched, forced persistence. -/
def reconcileTempDirFail (err : String) (store : Store) (a : Application) :
    Application × Store × Bool :=
  let a1 := { a with
      status := "Error"
      message := "Failed to create temp dir: " ++ err }
  let r := saveAppStatus store a1 true
  (a1, r.1, r.2)

/-- `reconcileApp` initialization, client-build failure (lines 451-458). -/
def reconcileClientFail (err : String) (store : Store) (a : Application) :
    Application × Store × Bool :=
  let a1 := { a with
      status := "Error"
      message := "Failed to create K8s client: " ++ err }
  let r := saveAppStatus store a1 true
  (a1, r.1, r.2)

/-- `reconcileApp` initialization, connectivity-probe failure (lines 466-472). -/
def reconcileConnectFail (err : String) (store : Store) (a : Application) :
    Application × Store × Bool :=
  let a1 := { a with
      status := "Error"
      message := "K8s connectivity error: " ++ err }
  let r := saveAppStatus store a1 true
  (a1, r.1, r.2)

/-- The observable shutdown state of a `Controller`: whether the root
context has been cancelled, whether each command channel has been closed,
and whether `wg.Wait` has completed. -/
structure ControllerState where
  ctxCancelled : Bool
  appChanClosed : Bool
  clusterChanClosed : Bool
  workersAwaited : Bool
deriving DecidableEq, Repr

/-- Go `close(ch)`: faults (a runtime panic) when the channel is already
closed. -/
def closeChan (alreadyClosed : Bool) : Except String Unit :=
  if alreadyClosed then .error "close of closed channel" else .ok ()

/-- `Controller.Stop` (controller.go lines 171-178): cancel the root context
(idempotent), close the app command channel, close the cluster command
channel, then wait for all workers.  A close of an already-closed channel
faults. -/
def Stop (s : ControllerState) : Except String ControllerState :=
  let s1 : ControllerState := { s with ctxCancelled := true }
  match closeChan s1.appChanClosed with
  | .error e => .error e
  | .ok _ =>
    let s2 : ControllerState := { s1 with appChanClosed := true }
    match closeChan s2.clusterChanClosed with
    | .error e => .error e
    | .ok _ =>
      let s3 : ControllerState := { s2 with clusterChanClosed := true }
      .ok { s3 with workersAwaited := true }

/-- The live-map entry for one application (`appRuntime`), recording the
memory address at which the entry's `cancel` field lives and the identity of
its sync channel.  In Go, distinct live variables occupy distinct
addresses. -/
structure AppRuntimeCell where
  cancelFieldAddr : Nat
  syncChanId : Nat
deriving DecidableEq, Repr

/-- The `runningApps` map. -/
abbrev RunningMap := List (String × AppRuntimeCell)

/-- Lookup in `runningApps`. -/
def lookupRt : RunningMap → String → Option AppRuntimeCell
  | [], _ => none
  | (n, rt) :: rest, nm => if n = nm then some rt else lookupRt rest nm

/-- Go `delete(runningApps, name)`. -/
def removeRt : RunningMap → String → RunningMap
  | [], _ => []
  | (n, rt) :: rest, nm =>
      if n = nm then removeRt rest nm else (n, rt) :: removeRt rest nm

/-- The deferred live-map cleanup at the top of `reconcileApp`
(controller.go lines 403-412): delete this worker's `runningApps` entry only
when `&rt.cancel == &appCancel`, i.e. when the address of the map entry's
`cancel` field equals the address of the goroutine's `appCancel`
parameter. -/
def reconcileCleanup (running : RunningMap) (appName : String)
    (appCancelAddr : Nat) : RunningMap :=
  match lookupRt running appName with
  | some rt =>
      if rt.cancelFieldAddr = appCancelAddr then removeRt running appName
      else running
  | none => running

/-- Cluster record (`internal/core/cluster`), the fields the health check
reads and writes.  `lastCheckedAt` is a timestamp. -/
structure Cluster where
  name : String
  kubeconfigPath : String
  status : String
  message : String
  lastCheckedAt : Int
deriving DecidableEq, Repr

/-- Events emitted while persisting the cluster registry: taking the write
lock, calling `SaveClusters`, releasing the write lock. -/
inductive ClusterEvent where
  | lockClusters
  | saveClusters
  | unlockClusters
deriving DecidableEq, Repr

/-- Environment one `performClusterHealthCheck` call observes: the client
build outcome, the connectivity probe outcome, and the current time. -/
structure HealthEnv where
  clientBuildErr : Option String
  connectivityErr : Option String
  now : Int
deriving DecidableEq, Repr

/-- `performClusterHealthCheck` (controller.go lines 276-307): client build
failure yields `Error`, probe failure `Unreachable`, success `Active`;
`lastCheckedAt` is always set to now and the registry is saved between
`Lock` and `Unlock`. -/
def performClusterHealthCheck (env : HealthEnv) (cl : Cluster) :
    Cluster × List ClusterEvent :=
  let cl1 :=
    match env.clientBuildErr with
    | some e => { cl with
        status := "Error"
        message := "Failed to create K8s client: " ++ e }
    | none =>
      match env.connectivityErr with
      | some e => { cl with
          status := "Unreachable"
          message := "Connectivity failed: " ++ e }
      | none => { cl with
          status := "Active"
          message := "Connectivity successful." }
  let cl2 := { cl1 with lastCheckedAt := env.now }
  (cl2, [.lockClusters, .saveClusters, .unlockClusters])

/-- An operation issued against the orchestrator's generic resource
interface: get / create / update of kind, namespace, name. -/
inductive K8sOp where
  | get (kind ns nm : String)
  | create (kind ns nm : String)
  | update (kind ns nm : String)
deriving DecidableEq, Repr

/-- Outcome of decoding one YAML document: failure, or kind / name /
namespace of the decoded object. -/
inductive DecodeOutcome where
  | err (e : String)
  | ok (kind nm ns : String)
deriving DecidableEq, Repr

/-- Outcome of the REST-mapping lookup for a kind: failure, or whether the
resolved endpoint is namespace-scoped. -/
inductive MapOutcome where
  | err (e : String)
  | ok (namespaceScoped : Bool)
deriving DecidableEq, Repr

/-- Environment one document of `ApplyManifests` observes: the decode
outcome, the mapping outcome, whether the get by name succeeds, and the
errors (if any) of the create and update calls. -/
structure DocEnv where
  decode : DecodeOutcome
  mapping : MapOutcome
  getOk : Bool
  createErr : Option String
  updateErr : Option String
deriving DecidableEq, Repr

/-- The namespace the resource interface is addressed with: for a
namespace-scoped endpoint, the document's namespace defaulted to
`"default"` when absent; for a cluster-scoped endpoint, none. -/
def effectiveNamespace (namespaceScoped : Bool) (ns : String) : String :=
  if namespaceScoped then (if ns = "" then "default" else ns) else ""

/-- Processing of one document inside `ApplyManifests`
(internal/core/k8s/k8s.go lines 126-199): decode; skip unnamed resources;
resolve the REST mapping; default the namespace of a namespace-scoped
resource; get by name, then update when the get succeeded, create when it
failed.  Returns the issued operations and the recorded error, if any. -/
def applyDocument (d : DocEnv) : List K8sOp × Option String :=
  match d.decode with
  | .err e => ([], some ("failed to decode YAML object: " ++ e))
  | .ok kind nm ns =>
    if nm = "" then
      ([], some ("skipping unnamed resource of kind " ++ kind))
    else
      match d.mapping with
      | .err e => ([], some ("failed to get REST mapping: " ++ e))
      | .ok namespaceScoped =>
        let effNs := effectiveNamespace namespaceScoped ns
        if d.getOk then
          match d.updateErr with
          | some e => ([.get kind effNs nm, .update kind effNs nm],
              some ("failed to update " ++ kind ++ " " ++ nm ++ ": " ++ e))
          | none => ([.get kind effNs nm, .update kind effNs nm], none)
        else
          match d.createErr with
          | some e => ([.get kind effNs nm, .create kind effNs nm],
              some ("failed to create " ++ kind ++ " " ++ nm ++ ": " ++ e))
          | none => ([.get kind effNs nm, .create kind effNs nm], none)

/-- `ApplyManifests` over the documents of a directory: process every
document, concatenating the issued operations and accumulating the per
document errors; no failure aborts the pass and nothing is rolled back. -/
def applyManifestsDocs (docs : List DocEnv) : List K8sOp × List String :=
  match docs with
  | [] => ([], [])
  | d :: rest =>
    let r := applyDocument d
    let rr := applyManifestsDocs rest
    (r.1 ++ rr.1, (match r.2 with | some e => [e] | none => []) ++ rr.2)

/-- A concrete application record used by the witness theorems. -/
def sampleApp : Application :=
  { name := "a1"
    repoURL := "https://example.com/repo.git"
    branch := "main"
    path := "k8s/prod"
    clusterName := "c1"
    pollingInterval := 30000000000
    lastSyncedGitHash := "abc123"
    status := "Synced"
    message := ""
    consecutiveFailures := 0 }

/-- A concrete cluster record used by the witness theorems. -/
def sampleCluster : Cluster :=
  { name := "c1"
    kubeconfigPath := "/tmp/kubeconfig"
    status := "Pending"
    message := ""
    lastCheckedAt := 0 }

theorem lookupRt_mem_snd (running : RunningMap) (nm : String) (rt : AppRuntimeCell)
    (h : lookupRt running nm = some rt) : rt ∈ running.map Prod.snd := by
  induction running with
  | nil => simp [lookupRt] at h
  | cons p rest ih =>
    obtain ⟨n, c⟩ := p
    by_cases hn : n = nm
    · simp [lookupRt, hn] at h
      simp [h]
    · simp only [lookupRt, hn, if_false, List.map_cons] at h ⊢
      exact List.mem_cons_of_mem _ (ih h)

theorem int64Wrap_eq_self {x : Int} (h1 : -(2 ^ 63) ≤ x) (h2 : x < 2 ^ 63) :
    int64Wrap x = x := by
  have e63 : (2 : Int) ^ 63 = 9223372036854775808 := by norm_num
  have e64 : (2 : Int) ^ 64 = 18446744073709551616 := by norm_num
  unfold int64Wrap
  rw [Int.emod_eq_of_lt (by omega) (by omega)]
  omega

theorem saveAppStatus_wrote (store : Store) (appToSave orig : Application) (force : Bool)
    (h : lookupApp store appToSave.name = some orig) :
    (saveAppStatus store appToSave force).2 =
      (force || orig.status != appToSave.status
        || orig.lastSyncedGitHash != appToSave.lastSyncedGitHash
        || orig.consecutiveFailures != appToSave.consecutiveFailures) := by
  simp only [saveAppStatus, h]
  split <;> simp_all

/-- C10: when the worker's application name is absent from the shared
applications map, `saveAppStatus` is a no-op: the store is unchanged, no
registry write occurs, and the worker's field updates are discarded. -/
theorem gitopsctl_c10 (store : Store) (a : Application) (force : Bool)
    (habsent : lookupApp store a.name = none) :
    saveAppStatus store a force = (store, false) := by
  simp [saveAppStatus, habsent]

/-- C10 witness: `saveAppStatus` against an empty store, with a forced
write, leaves the store unchanged and writes nothing. -/
theorem gitopsctl_c10_witness :
    saveAppStatus [] sampleApp true = ([], false) :=
  gitopsctl_c10 [] sampleApp true rfl

/-- C2: the deferred live-map cleanup in `reconcileApp` compares the address
of the map entry's `cancel` field with the address of the goroutine's
`appCancel` parameter.  Distinct live variables have distinct addresses, so
under that hypothesis the cleanup never removes any entry — including the
worker's own — contradicting the claimed "removes its entry iff it still
references this worker's cancellation handle". -/
theorem gitopsctl_c2 (running : RunningMap) (appName : String) (appCancelAddr : Nat)
    (hdistinct : ∀ rt ∈ running.map Prod.snd, rt.cancelFieldAddr ≠ appCancelAddr) :
    reconcileCleanup running appName appCancelAddr = running := by
  unfold reconcileCleanup
  cases hrt : lookupRt running appName with
  | none => rfl
  | some rt =>
    have hne := hdistinct rt (lookupRt_mem_snd running appName rt hrt)
    simp [hne]

/-- C2 witness: a worker for `"a1"` whose own runtime is registered in the
live map (entry field at address 1000, parameter at address 2000) fails to
remove its entry on exit. -/
theorem gitopsctl_c2_witness :
    reconcileCleanup [("a1", ⟨1000, 1⟩)] "a1" 2000 = [("a1", ⟨1000, 1⟩)] := by
  apply gitopsctl_c2
  decide

/-- C4 counterexample: from a freshly constructed controller, the first
`Stop` completes, but a second `Stop` after the completed first one faults
on closing an already-closed channel instead of succeeding. -/
theorem gitopsctl_c4_cex :
    Stop { ctxCancelled := false, appChanClosed := false,
           clusterChanClosed := false, workersAwaited := false } =
      .ok { ctxCancelled := true, appChanClosed := true,
            clusterChanClosed := true, workersAwaited := true } ∧
    Stop { ctxCancelled := true, appChanClosed := true,
           clusterChanClosed := true, workersAwaited := true } =
      .error "close of closed channel" :=
  ⟨rfl, rfl⟩

/-- C4 (amended): `Stop` cancels the root context, closes both command
channels and awaits all workers whenever the channels are still open; but it
is not idempotent: any second `Stop` after a completed one faults on the
double channel close. -/
theorem gitopsctl_c4 :
    (∀ s : ControllerState, s.appChanClosed = false → s.clusterChanClosed = false →
       Stop s = .ok { ctxCancelled := true, appChanClosed := true,
                      clusterChanClosed := true, workersAwaited := true }) ∧
    (∀ s t : ControllerState, Stop s = .ok t →
       Stop t = .error "close of closed channel") := by
  constructor
  · intro s h1 h2
    simp [Stop, closeChan, h1, h2]
  · intro s t h
    obtain ⟨c1, c2, c3, c4⟩ := s
    cases c2 <;> cases c3 <;> simp [Stop, closeChan] at h
    subst h
    rfl

/-- C4 witness: the second part of the amended claim applied to the fresh
controller state: after the completed first `Stop`, the second faults. -/
theorem gitopsctl_c4_witness :
    Stop { ctxCancelled := true, appChanClosed := true,
           clusterChanClosed := true, workersAwaited := true } =
      .error "close of closed channel" :=
  gitopsctl_c4.2
    { ctxCancelled := false, appChanClosed := false,
      clusterChanClosed := false, workersAwaited := false }
    { ctxCancelled := true, appChanClosed := true,
      clusterChanClosed := true, workersAwaited := true }
    rfl

/-- C9: `performClusterHealthCheck` yields status `Error` (with the build
failure in the message) when the client build fails, `Unreachable` when the
connectivity probe fails, `Active` when it succeeds; in all cases
`lastCheckedAt` is set to now, and the registry is saved between taking and
releasing the write lock. -/
theorem gitopsctl_c9 (env : HealthEnv) (cl : Cluster) :
    (∀ e, env.clientBuildErr = some e →
       (performClusterHealthCheck env cl).1.status = "Error" ∧
       (performClusterHealthCheck env cl).1.message =
         "Failed to create K8s client: " ++ e) ∧
    (∀ e, env.clientBuildErr = none → env.connectivityErr = some e →
       (performClusterHealthCheck env cl).1.status = "Unreachable") ∧
    (env.clientBuildErr = none → env.connectivityErr = none →
       (performClusterHealthCheck env cl).1.status = "Active") ∧
    (performClusterHealthCheck env cl).1.lastCheckedAt = env.now ∧
    (performClusterHealthCheck env cl).2 =
      [.lockClusters, .saveClusters, .unlockClusters] := by
  obtain ⟨cb, cn, now⟩ := env
  cases cb <;> cases cn <;> simp [performClusterHealthCheck]

/-- C9 witness: a failing client build at time 42 yields status `Error`
with the build failure in the message, with `lastCheckedAt` updated and the
save performed under the write lock. -/
theorem gitopsctl_c9_witness :
    ((performClusterHealthCheck ⟨some "no such file", none, 42⟩ sampleCluster).1.status = "Error" ∧
      (performClusterHealthCheck ⟨some "no such file", none, 42⟩ sampleCluster).1.message =
        "Failed to create K8s client: " ++ "no such file") ∧
    (performClusterHealthCheck ⟨some "no such file", none, 42⟩ sampleCluster).1.lastCheckedAt = 42 ∧
    (performClusterHealthCheck ⟨some "no such file", none, 42⟩ sampleCluster).2 =
      [.lockClusters, .saveClusters, .unlockClusters] := by
  have h := gitopsctl_c9 ⟨some "no such file", none, 42⟩ sampleCluster
  exact ⟨h.1 "no such file" rfl, h.2.2.2.1, h.2.2.2.2⟩

/-- C8: for a decoded, named document whose kind resolves to a mapping, a
namespace-scoped document without a namespace is addressed at namespace
`"default"`; a get by name is issued first, followed by an update when the
get succeeded and a create when it failed. -/
theorem gitopsctl_c8 (d : DocEnv) (kind nm ns : String) (sc : Bool)
    (hdec : d.decode = .ok kind nm ns) (hnm : nm ≠ "")
    (hmap : d.mapping = .ok sc) :
    (sc = true → ns = "" → effectiveNamespace sc ns = "default") ∧
    (applyDocument d).1 =
      K8sOp.get kind (effectiveNamespace sc ns) nm ::
        (if d.getOk = true then [K8sOp.update kind (effectiveNamespace sc ns) nm]
         else [K8sOp.create kind (effectiveNamespace sc ns) nm]) := by
  constructor
  · intro hs hns
    simp [effectiveNamespace, hs, hns]
  · obtain ⟨dec, mp, g, ce, ue⟩ := d
    simp only at hdec hmap
    subst hdec
    subst hmap
    cases g <;> cases ce <;> cases ue <;> simp [applyDocument, hnm]

/-- C8 witness: a namespace-scoped Deployment document named `web` with no
namespace, whose get succeeds, is addressed at `"default"` and receives a
get followed by an update. -/
theorem gitopsctl_c8_witness :
    (applyDocument ⟨.ok "Deployment" "web" "", .ok true, true, none, none⟩).1 =
      [K8sOp.get "Deployment" "default" "web",
       K8sOp.update "Deployment" "default" "web"] := by
  have h := gitopsctl_c8 ⟨.ok "Deployment" "web" "", .ok true, true, none, none⟩
    "Deployment" "web" "" true rfl (by decide) rfl
  simpa [effectiveNamespace] using h.2

/-- C3 counterexample: at 56 consecutive failures with a 10 s polling
interval, the 64-bit product `BaseBackoffDuration << 55` wraps to zero, so
the code computes an effective interval of 0 while the claimed formula gives
`min(5 s · 2^55, 50 s) = 50 s`. -/
theorem gitopsctl_c3_cex :
    effectiveInterval 10000000000 56 = 0 ∧
    min (BaseBackoffDuration * 2 ^ 55) ((10000000000 : Int) * MaxConsecutiveFailures) =
      50000000000 := by
  constructor <;> decide

/-- C3 (amended): for `1 ≤ k` consecutive failures the effective interval
equals `min(5 s · 2^(k−1), polling_interval · 5)` provided neither product
overflows the signed 64-bit duration type; for `k = 0` it equals the
configured polling interval.  (Beyond that range the computed products wrap
modulo 2^64, e.g. at k = 56 the interval becomes 0.) -/
theorem gitopsctl_c3 :
    (∀ (p : Int) (k : Nat), 1 ≤ k →
       BaseBackoffDuration * 2 ^ (k - 1) < 2 ^ 63 →
       0 ≤ p → p * MaxConsecutiveFailures < 2 ^ 63 →
       effectiveInterval p (k : Int) =
         min (BaseBackoffDuration * 2 ^ (k - 1)) (p * MaxConsecutiveFailures)) ∧
    (∀ p : Int, effectiveInterval p 0 = p) := by
  constructor
  · intro p k hk hof hp0 hp
    have hbb : (1 : Int) ≤ BaseBackoffDuration := by norm_num [BaseBackoffDuration]
    have hpow0 : (0 : Int) ≤ 2 ^ (k - 1) := by positivity
    have hfac : (2 : Int) ^ (k - 1) ≤ BaseBackoffDuration * 2 ^ (k - 1) :=
      le_mul_of_one_le_left hpow0 hbb
    have hpow : (2 : Int) ^ (k - 1) < 2 ^ 63 := lt_of_le_of_lt hfac hof
    have hkpos : (0 : Int) < (k : Int) := by exact_mod_cast hk
    have htn : (((k : Int)) - 1).toNat = k - 1 := by omega
    have hmax0 : (0 : Int) ≤ p * MaxConsecutiveFailures := by
      have : (0 : Int) ≤ MaxConsecutiveFailures := by norm_num [MaxConsecutiveFailures]
      positivity
    have hbig : (0 : Int) < 2 ^ 63 := by positivity
    simp only [effectiveInterval, goShiftOne, htn, if_pos hkpos]
    rw [int64Wrap_eq_self (by linarith) hpow,
        int64Wrap_eq_self (by nlinarith) hof,
        int64Wrap_eq_self (by linarith) hp]
  · intro p
    simp [effectiveInterval]

/-- C3 witness: the spec's own example — after 3 failures with a 30 s
polling interval the next effective interval is `min(5 s · 4, 150 s) = 20 s`. -/
theorem gitopsctl_c3_witness :
    effectiveInterval 30000000000 3 = 20000000000 := by
  have h := gitopsctl_c3.1 30000000000 3 (by norm_num)
    (by norm_num [BaseBackoffDuration]) (by norm_num)
    (by norm_num [MaxConsecutiveFailures])
  norm_num [BaseBackoffDuration, MaxConsecutiveFailures] at h
  exact h

/-- C1 counterexample: the dispatcher's handling of a `Start` command whose
referenced cluster is absent sets the application's status to `Error` but
resets `consecutive_failures` to zero instead of incrementing it: from a
record with 3 failures, the result has 0, not 4. -/
theorem gitopsctl_c1_cex :
    (startAppMissingCluster [] { sampleApp with consecutiveFailures := 3 }).1.status = "Error" ∧
    (startAppMissingCluster [] { sampleApp with consecutiveFailures := 3 }).1.consecutiveFailures ≠
      ({ sampleApp with consecutiveFailures := 3 } : Application).consecutiveFailures + 1 := by
  constructor
  · rfl
  · decide

/-- C1 (amended): every `performSync` path that sets status `Error`
increments `consecutive_failures`, and every path that sets `Synced` resets
it to zero; but the dispatcher's missing-cluster path and the reconciler's
cluster-lookup failure set `Error` and reset failures to zero, and the
remaining initialization failures (workdir creation, client build,
connectivity probe) set `Error` leaving the count unchanged. -/
theorem gitopsctl_c1 :
    (∀ (e : String) (px : Bool) (es : List String) (store : Store) (a : Application),
       (performSync ⟨.fail e, px, es⟩ store a).app.status = "Error" ∧
       (performSync ⟨.fail e, px, es⟩ store a).app.consecutiveFailures =
         a.consecutiveFailures + 1) ∧
    (∀ (h : String) (es : List String) (store : Store) (a : Application),
       h ≠ a.lastSyncedGitHash →
       (performSync ⟨.ok h, false, es⟩ store a).app.status = "Error" ∧
       (performSync ⟨.ok h, false, es⟩ store a).app.consecutiveFailures =
         a.consecutiveFailures + 1) ∧
    (∀ (h : String) (es : List String) (store : Store) (a : Application),
       h ≠ a.lastSyncedGitHash → es ≠ [] →
       (performSync ⟨.ok h, true, es⟩ store a).app.status = "Error" ∧
       (performSync ⟨.ok h, true, es⟩ store a).app.consecutiveFailures =
         a.consecutiveFailures + 1) ∧
    (∀ (h : String) (px : Bool) (es : List String) (store : Store) (a : Application),
       h = a.lastSyncedGitHash →
       (a.status = "Error" ∨ a.status = "Pending" ∨ a.status = "SyncRequested") →
       (performSync ⟨.ok h, px, es⟩ store a).app.status = "Synced" ∧
       (performSync ⟨.ok h, px, es⟩ store a).app.consecutiveFailures = 0) ∧
    (∀ (h : String) (store : Store) (a : Application),
       h ≠ a.lastSyncedGitHash →
       (performSync ⟨.ok h, true, []⟩ store a).app.status = "Synced" ∧
       (performSync ⟨.ok h, true, []⟩ store a).app.consecutiveFailures = 0) ∧
    (∀ (store : Store) (a : Application),
       (startAppMissingCluster store a).1.status = "Error" ∧
       (startAppMissingCluster store a).1.consecutiveFailures = 0) ∧
    (∀ (store : Store) (a : Application),
       (reconcileClusterMissing store a).1.status = "Error" ∧
       (reconcileClusterMissing store a).1.consecutiveFailures = 0) ∧
    (∀ (e : String) (store : Store) (a : Application),
       (reconcileTempDirFail e store a).1.status = "Error" ∧
       (reconcileTempDirFail e store a).1.consecutiveFailures = a.consecutiveFailures) ∧
    (∀ (e : String) (store : Store) (a : Application),
       (reconcileClientFail e store a).1.status = "Error" ∧
       (reconcileClientFail e store a).1.consecutiveFailures = a.consecutiveFailures) ∧
    (∀ (e : String) (store : Store) (a : Application),
       (reconcileConnectFail e store a).1.status = "Error" ∧
       (reconcileConnectFail e store a).1.consecutiveFailures = a.consecutiveFailures) := by
  refine ⟨?_, ?_, ?_, ?_, ?_, ?_, ?_, ?_, ?_, ?_⟩
  · intro e px es store a
    exact ⟨by simp [performSync], by simp [performSync]⟩
  · intro h es store a hne
    exact ⟨by simp [performSync, hne], by simp [performSync, hne]⟩
  · intro h es store a hne hes
    exact ⟨by simp [performSync, hne, hes], by simp [performSync, hne, hes]⟩
  · intro h px es store a heq hs
    exact ⟨by simp [performSync, heq, hs], by simp [performSync, heq, hs]⟩
  · intro h store a hne
    exact ⟨by simp [performSync, hne], by simp [performSync, hne]⟩
  · intro store a
    exact ⟨rfl, rfl⟩
  · intro store a
    exact ⟨rfl, rfl⟩
  · intro e store a
    exact ⟨rfl, rfl⟩
  · intro e store a
    exact ⟨rfl, rfl⟩
  · intro e store a
    exact ⟨rfl, rfl⟩

/-- C1 witness: a missing-manifests-path sync on the sample application sets
`Error` and increments the failure count from 0 to 1. -/
theorem gitopsctl_c1_witness :
    (performSync ⟨.ok "h2", false, []⟩ [] sampleApp).app.status = "Error" ∧
    (performSync ⟨.ok "h2", false, []⟩ [] sampleApp).app.consecutiveFailures =
      sampleApp.consecutiveFailures + 1 :=
  gitopsctl_c1.2.1 "h2" [] [] sampleApp (by decide)

/-- C5: a `saveAppStatus` invocation whose application is present in the
store writes the registry file iff the write is forced or one of status,
last synced commit, or consecutive-failure count differs from the in-store
copy; consequently a second `performSync` against an unchanged remote commit
never writes the file. -/
theorem gitopsctl_c5 :
    (∀ (store : Store) (appToSave orig : Application) (force : Bool),
       lookupApp store appToSave.name = some orig →
       ((saveAppStatus store appToSave force).2 = true ↔
         (force = true ∨ orig.status ≠ appToSave.status ∨
          orig.lastSyncedGitHash ≠ appToSave.lastSyncedGitHash ∨
          orig.consecutiveFailures ≠ appToSave.consecutiveFailures))) ∧
    (∀ (env : SyncEnv) (store : Store) (a : Application),
       env.gitResult = .ok a.lastSyncedGitHash →
       (performSync env (performSync env store a).store
          (performSync env store a).app).wrote = false) := by
  constructor
  · intro store appToSave orig force h
    rw [saveAppStatus_wrote store appToSave orig force h]
    simp [Bool.or_eq_true, bne_iff_ne, or_assoc]
  · intro env store a hgit
    obtain ⟨gr, px, es⟩ := env
    have hgr : gr = .ok a.lastSyncedGitHash := hgit
    subst hgr
    by_cases hs : a.status = "Error" ∨ a.status = "Pending" ∨ a.status = "SyncRequested"
    · have hns : ¬(("Synced" : String) = "Error" ∨ ("Synced" : String) = "Pending" ∨
          ("Synced" : String) = "SyncRequested") := by decide
      simp [performSync, hs, hns]
    · simp [performSync, hs]

/-- C5 witness: saving the sample application over an identical in-store
copy, unforced, does not write. -/
theorem gitopsctl_c5_witness :
    (saveAppStatus [("a1", sampleApp)] sampleApp false).2 = true ↔
      (false = true ∨ sampleApp.status ≠ sampleApp.status ∨
       sampleApp.lastSyncedGitHash ≠ sampleApp.lastSyncedGitHash ∨
       sampleApp.consecutiveFailures ≠ sampleApp.consecutiveFailures) :=
  gitopsctl_c5.1 [("a1", sampleApp)] sampleApp sampleApp false rfl

/-- C6: when the resolved commit equals the last synced commit, a prior
status in {Error, Pending, SyncRequested} transitions to `Synced` with the
failure count reset and the record persisted; any other prior status leads
to a message-only update with no persistence; in both cases `performSync`
returns without invoking the manifest applier. -/
theorem gitopsctl_c6 :
    (∀ (px : Bool) (es : List String) (store : Store) (a orig : Application),
       (a.status = "Error" ∨ a.status = "Pending" ∨ a.status = "SyncRequested") →
       lookupApp store a.name = some orig →
       ((performSync ⟨.ok a.lastSyncedGitHash, px, es⟩ store a).app.status = "Synced" ∧
        (performSync ⟨.ok a.lastSyncedGitHash, px, es⟩ store a).app.consecutiveFailures = 0 ∧
        (performSync ⟨.ok a.lastSyncedGitHash, px, es⟩ store a).wrote = true ∧
        (performSync ⟨.ok a.lastSyncedGitHash, px, es⟩ store a).applied = false)) ∧
    (∀ (px : Bool) (es : List String) (store : Store) (a : Application),
       ¬(a.status = "Error" ∨ a.status = "Pending" ∨ a.status = "SyncRequested") →
       performSync ⟨.ok a.lastSyncedGitHash, px, es⟩ store a =
         ⟨{ a with message := "Up to date at " ++ a.lastSyncedGitHash },
          store, false, false⟩) := by
  constructor
  · intro px es store a orig hs horig
    rcases hs with h | h | h <;>
      simp [performSync, saveAppStatus, horig, h]
  · intro px es store a hs
    simp [performSync, hs]

/-- C6 witness: the sample application in status `Error` with 2 failures,
present in the store, on an unchanged commit becomes `Synced` with 0
failures, is persisted, and no manifests are applied. -/
theorem gitopsctl_c6_witness :
    (performSync ⟨.ok ({ sampleApp with status := "Error", consecutiveFailures := 2 } : Application).lastSyncedGitHash, true, []⟩
        [("a1", { sampleApp with status := "Error", consecutiveFailures := 2 })]
        { sampleApp with status := "Error", consecutiveFailures := 2 }).app.status = "Synced" ∧
    (performSync ⟨.ok ({ sampleApp with status := "Error", consecutiveFailures := 2 } : Application).lastSyncedGitHash, true, []⟩
        [("a1", { sampleApp with status := "Error", consecutiveFailures := 2 })]
        { sampleApp with status := "Error", consecutiveFailures := 2 }).app.consecutiveFailures = 0 ∧
    (performSync ⟨.ok ({ sampleApp with status := "Error", consecutiveFailures := 2 } : Application).lastSyncedGitHash, true, []⟩
        [("a1", { sampleApp with status := "Error", consecutiveFailures := 2 })]
        { sampleApp with status := "Error", consecutiveFailures := 2 }).wrote = true ∧
    (performSync ⟨.ok ({ sampleApp with status := "Error", consecutiveFailures := 2 } : Application).lastSyncedGitHash, true, []⟩
        [("a1", { sampleApp with status := "Error", consecutiveFailures := 2 })]
        { sampleApp with status := "Error", consecutiveFailures := 2 }).applied = false :=
  gitopsctl_c6.1 true []
    [("a1", { sampleApp with status := "Error", consecutiveFailures := 2 })]
    { sampleApp with status := "Error", consecutiveFailures := 2 }
    { sampleApp with status := "Error", consecutiveFailures := 2 }
    (Or.inl rfl) rfl

/-- C7: when the manifest applier returns a non-empty error list,
`performSync` sets `Error`, builds the message enumerating all errors joined
by `"; "`, increments the failure count exactly once, persists, and does not
advance the synced commit; at the applier level the operations of every
successfully applied document are retained in the pass (no rollback) and
exactly the failing documents contribute errors. -/
theorem gitopsctl_c7 :
    (∀ (h : String) (es : List String) (store : Store) (a orig : Application),
       h ≠ a.lastSyncedGitHash → es ≠ [] →
       lookupApp store a.name = some orig →
       orig.consecutiveFailures = a.consecutiveFailures →
       ((performSync ⟨.ok h, true, es⟩ store a).app.status = "Error" ∧
        (performSync ⟨.ok h, true, es⟩ store a).app.message =
          "Failed to apply " ++ toString es.length ++ " manifest(s): " ++
            String.intercalate "; " es ∧
        (performSync ⟨.ok h, true, es⟩ store a).app.consecutiveFailures =
          a.consecutiveFailures + 1 ∧
        (performSync ⟨.ok h, true, es⟩ store a).wrote = true ∧
        (performSync ⟨.ok h, true, es⟩ store a).app.lastSyncedGitHash =
          a.lastSyncedGitHash)) ∧
    (∀ (docs : List DocEnv) (d : DocEnv), d ∈ docs →
       ∀ op ∈ (applyDocument d).1, op ∈ (applyManifestsDocs docs).1) ∧
    (∀ docs : List DocEnv,
       (applyManifestsDocs docs).2.length =
         (docs.filter (fun d => ((applyDocument d).2).isSome)).length) := by
  refine ⟨?_, ?_, ?_⟩
  · intro h es store a orig hne hes horig horigf
    have hb : (orig.consecutiveFailures != a.consecutiveFailures + 1) = true := by
      simp only [horigf, bne_iff_ne, ne_eq]
      omega
    refine ⟨?_, ?_, ?_, ?_, ?_⟩ <;>
      simp [performSync, saveAppStatus, horig, hb, hne, hes]
  · intro docs d hd op hop
    induction docs with
    | nil => cases hd
    | cons d0 rest ih =>
      rcases List.mem_cons.mp hd with hEq | hmem
      · subst hEq
        exact List.mem_append_left _ hop
      · exact List.mem_append_right _ (ih hmem)
  · intro docs
    induction docs with
    | nil => rfl
    | cons d rest ih =>
      cases hcase : (applyDocument d).2 <;>
        simp [applyManifestsDocs, List.filter, hcase, ih]

/-- C7 witness: a changed commit whose apply pass returns errors `e1`, `e2`
on the sample application yields status `Error`, the enumerated two-error
message, failures 0 → 1, a persisted record, and an unchanged synced
commit. -/
theorem gitopsctl_c7_witness :
    (performSync ⟨.ok "def456", true, ["e1", "e2"]⟩ [("a1", sampleApp)] sampleApp).app.status = "Error" ∧
    (performSync ⟨.ok "def456", true, ["e1", "e2"]⟩ [("a1", sampleApp)] sampleApp).app.message =
      "Failed to apply " ++ toString (["e1", "e2"] : List String).length ++
        " manifest(s): " ++ String.intercalate "; " ["e1", "e2"] ∧
    (performSync ⟨.ok "def456", true, ["e1", "e2"]⟩ [("a1", sampleApp)] sampleApp).app.consecutiveFailures =
      sampleApp.consecutiveFailures + 1 ∧
    (performSync ⟨.ok "def456", true, ["e1", "e2"]⟩ [("a1", sampleApp)] sampleApp).wrote = true ∧
    (performSync ⟨.ok "def456", true, ["e1", "e2"]⟩ [("a1", sampleApp)] sampleApp).app.lastSyncedGitHash =
      sampleApp.lastSyncedGitHash :=
  gitopsctl_c7.1 "def456" ["e1", "e2"] [("a1", sampleApp)] sampleApp sampleApp
    (by decide) (by decide) rfl rfl

end Gitopsctl
